import Mathlib

/-!
Verification development for the light-strike repository: a shallow
embedding of the score/combo/health state machine from the app component
(src/unnamed/part_000) and of the dwell-selector loop from
src/components/HandCursor.tsx, with theorems settling the spec claims.
-/

namespace LightStrike

/-! ### Data model, from src/types.ts -/

inductive GameStatus where
| LOADING
| IDLE
| PLAYING
| GAME_OVER
| VICTORY
deriving DecidableEq, Repr

inductive HandType where
| left
| right
deriving DecidableEq, Repr

inductive CutDirection where
| UP
| DOWN
| LEFT
| RIGHT
| ANY
deriving DecidableEq, Repr

/-- NoteData from src/types.ts.  The optional judgment fields `hit?` and
`missed?` are modelled as `Bool` (absent = false, which is how the code
reads them); `hitTime?` is modelled as `Option` of a rational number of
seconds. -/
structure NoteData where
  id : String
  time : ℚ
  lineIndex : Nat
  lineLayer : Nat
  type : HandType
  cutDirection : CutDirection
  hit : Bool
  missed : Bool
  hitTime : Option ℚ
deriving DecidableEq, Repr

/-- Game state held by the App component via useState: gameStatus, score,
combo, multiplier, health.  `pendingGameOver` models a scheduled
`setTimeout(() => endGame(false), 0)` that has not run yet (the deferred
GAME_OVER transition of handleNoteMiss). -/
structure GameState where
  status : GameStatus
  score : Nat
  combo : Nat
  multiplier : Nat
  health : Int
  pendingGameOver : Bool
deriving DecidableEq, Repr

/-! ### Score/combo/health state machine, from src/unnamed/part_000 -/

/-- The multiplier tier recomputed inside `setCombo` in handleNoteHit
(part_000 lines 79-86): `newCombo > 30 → 8, > 20 → 4, > 10 → 2, else 1`. -/
def multiplierFor (c : Nat) : Nat :=
  if 30 < c then 8 else if 20 < c then 4 else if 10 < c then 2 else 1

/-- handleNoteHit (part_000 lines 68-90).  `points = 100 (+50 on goodCut)`;
combo increments and the multiplier is recomputed from the new combo; the
score update `setScore(s => s + points * multiplier)` reads `multiplier`
from the useCallback closure, i.e. the state value from before this hit,
not the tier just recomputed from the incremented combo; health gains 2,
clamped at 100 via Math.min.  Each judge event is processed in its own
update, with a re-render before the next event. -/
def handleNoteHit (goodCut : Bool) (s : GameState) : GameState :=
  { s with
    combo := s.combo + 1
    multiplier := multiplierFor (s.combo + 1)
    score := s.score + (100 + (if goodCut then 50 else 0)) * s.multiplier
    health := if s.health + 2 ≤ 100 then s.health + 2 else 100 }

/-- handleNoteMiss (part_000 lines 92-103): combo and multiplier reset;
health drops by 15; when the result is ≤ 0 health is clamped to 0 and the
GAME_OVER transition is only scheduled (setTimeout 0), never applied inside
this update. -/
def handleNoteMiss (s : GameState) : GameState :=
  if s.health - 15 ≤ 0 then
    { s with combo := 0, multiplier := 1, health := 0, pendingGameOver := true }
  else
    { s with combo := 0, multiplier := 1, health := s.health - 15 }

/-- endGame (part_000 lines 133-138): sets the terminal status. -/
def endGame (victory : Bool) (s : GameState) : GameState :=
  { s with
    status := if victory then GameStatus.VICTORY else GameStatus.GAME_OVER
    pendingGameOver := false }

/-- Running the deferred timeout scheduled by handleNoteMiss. -/
def applyPending (s : GameState) : GameState :=
  if s.pendingGameOver then endGame false s else s

/-- resetNote models the per-note part of `DEMO_CHART.forEach(n =>
{ n.hit = false; n.missed = false; })` in startGame (part_000 line 118):
only `hit` and `missed` are assigned; `hitTime` is left as it was. -/
def resetNote (n : NoteData) : NoteData :=
  { n with hit := false, missed := false }

def resetChart (chart : List NoteData) : List NoteData :=
  chart.map resetNote

/-- startGame (part_000 lines 105-131).  `isCameraReady` guards the whole
body; on the success path the score/combo/multiplier/health resets and the
chart reset happen first, then audio playback is attempted (`playOk` stands
for the play() promise resolving) and only a successful play sets the
status to PLAYING; the catch branch leaves the status untouched. -/
def startGame (isCameraReady playOk : Bool) (s : GameState)
    (chart : List NoteData) : GameState × List NoteData :=
  if isCameraReady then
    let s1 : GameState :=
      { s with score := 0, combo := 0, multiplier := 1, health := 100 }
    if playOk then ({ s1 with status := GameStatus.PLAYING }, resetChart chart)
    else (s1, resetChart chart)
  else (s, chart)

/-- State right after a successful start. -/
def initPlaying : GameState :=
  { status := GameStatus.PLAYING, score := 0, combo := 0, multiplier := 1,
    health := 100, pendingGameOver := false }

def initIdle : GameState :=
  { status := GameStatus.IDLE, score := 0, combo := 0, multiplier := 1,
    health := 100, pendingGameOver := false }

inductive GameEvent where
| hit (goodCut : Bool)
| miss
deriving DecidableEq, Repr

def stepEvent (e : GameEvent) (s : GameState) : GameState :=
  match e with
  | GameEvent.hit g => handleNoteHit g s
  | GameEvent.miss => handleNoteMiss s

def runEvents (evs : List GameEvent) (s : GameState) : GameState :=
  match evs with
  | [] => s
  | e :: rest => runEvents rest (stepEvent e s)

/-- n consecutive direction-correct hits from the fresh PLAYING state. -/
def hits : Nat → GameState
  | 0 => initPlaying
  | n + 1 => handleNoteHit true (hits n)

/-- A judged note of the demo chart, as it stands before a new session. -/
def exNote : NoteData :=
  { id := "n0", time := 1, lineIndex := 0, lineLayer := 0,
    type := HandType.left, cutDirection := CutDirection.ANY,
    hit := true, missed := false, hitTime := some 1 }

/-- A mid-game state with health 15, one miss away from lethal. -/
def s15 : GameState :=
  { status := GameStatus.PLAYING, score := 700, combo := 5, multiplier := 1,
    health := 15, pendingGameOver := false }

/-! ### Dwell selector, from src/components/HandCursor.tsx (updateLoop) -/

/-- Math.min as used on the progress computation (line 93). -/
def jsMin (a b : ℚ) : ℚ := if a ≤ b then a else b

def HOVER_THRESHOLD_MS : ℚ := 1000

/-- The cooldown literal at line 99: `state.startTime = performance.now() + 500`. -/
def CLICK_COOLDOWN_MS : ℚ := 500

/-- Per-cursor dwell state: the rendered CursorState fields plus the
internalState ref (startTime, lastTarget).  `clicks` counts fired
`targetButton.click()` calls; `marked` is the set of DOM elements currently
carrying the `data-hand-hover` class, elements being named by `Nat`. -/
structure DwellState where
  active : Bool
  hovering : Bool
  progress : ℚ
  startTime : ℚ
  lastTarget : Option Nat
  clicks : Nat
  marked : List Nat
deriving DecidableEq, Repr

/-- classList.add is idempotent. -/
def addMark (t : Nat) (l : List Nat) : List Nat :=
  if t ∈ l then l else t :: l

def removeMark (t : Nat) (l : List Nat) : List Nat := l.erase t

/-- What one cursor observes in one frame: no hand at all, or a hand whose
hit test yields no button, or a button `t` together with its disabled
attribute. -/
inductive FrameObs where
| noHand
| hand (btn : Option (Nat × Bool))
deriving DecidableEq, Repr

/-- Shorthand for a frame that hovers the enabled button `t`. -/
def hoverObs (t : Nat) : FrameObs := FrameObs.hand (some (t, false))

/-- Lines 79-108: an enabled button under the cursor.  The hover class is
added first; a changed target restarts the dwell clock; an unchanged target
computes `progress = Math.min(1, elapsed / HOVER_THRESHOLD_MS)` and, when
that reaches 1, clicks once, pushes startTime 500 ms into the future and
zeroes progress. -/
def dwellHover (now : ℚ) (t : Nat) (s : DwellState) : DwellState :=
  if s.lastTarget = some t then
    if 1 ≤ jsMin 1 ((now - s.startTime) / HOVER_THRESHOLD_MS) then
      { s with active := true, hovering := true, marked := addMark t s.marked,
               progress := 0, startTime := now + CLICK_COOLDOWN_MS,
               clicks := s.clicks + 1 }
    else
      { s with active := true, hovering := true, marked := addMark t s.marked,
               progress := jsMin 1 ((now - s.startTime) / HOVER_THRESHOLD_MS) }
  else
    { s with active := true, hovering := true, marked := addMark t s.marked,
             lastTarget := some t, startTime := now, progress := 0 }

/-- Lines 109-117: hand present but no enabled button under it: the class
is removed from the previous target and hover/progress state clears. -/
def dwellNoTarget (s : DwellState) : DwellState :=
  { s with active := true, hovering := false, progress := 0,
           lastTarget := none,
           marked := match s.lastTarget with
             | some u => removeMark u s.marked
             | none => s.marked }

/-- Lines 120-131: hand lost.  Only active/hovering/lastTarget are touched,
and only when the cursor was active; the progress field and the hover class
on the previous target are left as they were. -/
def dwellHandLost (s : DwellState) : DwellState :=
  if s.active then { s with active := false, hovering := false, lastTarget := none }
  else s

def dwellStep (now : ℚ) (obs : FrameObs) (s : DwellState) : DwellState :=
  match obs with
  | FrameObs.noHand => dwellHandLost s
  | FrameObs.hand none => dwellNoTarget s
  | FrameObs.hand (some (_, true)) =>
      -- a disabled element is treated as no target (line 79)
      dwellNoTarget s
  | FrameObs.hand (some (t, false)) => dwellHover now t s

def runDwell : List (ℚ × FrameObs) → DwellState → DwellState
  | [], s => s
  | (t, o) :: rest, s => runDwell rest (dwellStep t o s)

def initDwell : DwellState :=
  { active := false, hovering := false, progress := 0, startTime := 0,
    lastTarget := none, clicks := 0, marked := [] }

/-- State after first hovering enabled button 0 at time 0 from initDwell. -/
def dwellA1 : DwellState :=
  { active := true, hovering := true, progress := 0, startTime := 0,
    lastTarget := some 0, clicks := 0, marked := [0] }

def dwellA2 : DwellState := { dwellA1 with progress := 9/10 }

def dwellA3 : DwellState := { dwellA1 with startTime := 1500, clicks := 1 }

def dwellA4 : DwellState := { dwellA3 with progress := -121/250 }

def dwellB2 : DwellState := { dwellA1 with progress := 3/5 }

def dwellB3 : DwellState :=
  { dwellB2 with active := false, hovering := false, lastTarget := none }

/-! ### Helper lemmas -/

theorem hover_threshold_pos : (0 : ℚ) < HOVER_THRESHOLD_MS := by
  norm_num [HOVER_THRESHOLD_MS]

theorem jsMin_le_left (a b : ℚ) : jsMin a b ≤ a := by
  unfold jsMin; split_ifs with h
  · exact le_refl a
  · exact le_of_lt (not_le.mp h)

theorem jsMin_nonneg (a b : ℚ) (ha : 0 ≤ a) (hb : 0 ≤ b) : 0 ≤ jsMin a b := by
  unfold jsMin; split_ifs <;> assumption

theorem jsMin_mono_right (a x y : ℚ) (h : x ≤ y) : jsMin a x ≤ jsMin a y := by
  unfold jsMin; split_ifs <;> linarith

theorem one_le_jsMin_one_iff (x : ℚ) : 1 ≤ jsMin 1 x ↔ 1 ≤ x := by
  unfold jsMin; split_ifs with h
  · exact ⟨fun _ => h, fun _ => le_refl 1⟩
  · exact Iff.rfl

theorem dwellStep_hover (now : ℚ) (t : Nat) (s : DwellState) :
    dwellStep now (hoverObs t) s = dwellHover now t s := rfl

theorem dwellStep_noHand (now : ℚ) (s : DwellState) :
    dwellStep now FrameObs.noHand s = dwellHandLost s := rfl

theorem dwellHover_same_noact (s : DwellState) (t : Nat) (now : ℚ)
    (hlt : s.lastTarget = some t)
    (hna : jsMin 1 ((now - s.startTime) / HOVER_THRESHOLD_MS) < 1) :
    dwellHover now t s =
      { s with active := true, hovering := true, marked := addMark t s.marked,
               progress := jsMin 1 ((now - s.startTime) / HOVER_THRESHOLD_MS) } := by
  unfold dwellHover
  rw [if_pos hlt, if_neg (not_le.mpr hna)]

theorem dwellHover_act (s : DwellState) (t : Nat) (now : ℚ)
    (hlt : s.lastTarget = some t)
    (hact : 1 ≤ jsMin 1 ((now - s.startTime) / HOVER_THRESHOLD_MS)) :
    dwellHover now t s =
      { s with active := true, hovering := true, marked := addMark t s.marked,
               progress := 0, startTime := now + CLICK_COOLDOWN_MS,
               clicks := s.clicks + 1 } := by
  unfold dwellHover
  rw [if_pos hlt, if_pos hact]

theorem dwellHover_new_target (s : DwellState) (t : Nat) (now : ℚ)
    (hne : ¬ s.lastTarget = some t) :
    dwellHover now t s =
      { s with active := true, hovering := true, marked := addMark t s.marked,
               lastTarget := some t, startTime := now, progress := 0 } := by
  unfold dwellHover
  rw [if_neg hne]

theorem dwellStep_progress_same (s : DwellState) (t : Nat) (now : ℚ)
    (hlt : s.lastTarget = some t)
    (hna : jsMin 1 ((now - s.startTime) / HOVER_THRESHOLD_MS) < 1) :
    (dwellStep now (hoverObs t) s).progress
        = jsMin 1 ((now - s.startTime) / HOVER_THRESHOLD_MS) := by
  rw [dwellStep_hover, dwellHover_same_noact s t now hlt hna]

theorem dwellStep_startTime_same (s : DwellState) (t : Nat) (now : ℚ)
    (hlt : s.lastTarget = some t)
    (hna : jsMin 1 ((now - s.startTime) / HOVER_THRESHOLD_MS) < 1) :
    (dwellStep now (hoverObs t) s).startTime = s.startTime := by
  rw [dwellStep_hover, dwellHover_same_noact s t now hlt hna]

theorem dwellStep_lastTarget_same (s : DwellState) (t : Nat) (now : ℚ)
    (hlt : s.lastTarget = some t)
    (hna : jsMin 1 ((now - s.startTime) / HOVER_THRESHOLD_MS) < 1) :
    (dwellStep now (hoverObs t) s).lastTarget = some t := by
  rw [dwellStep_hover, dwellHover_same_noact s t now hlt hna]
  exact hlt

theorem stepEvent_health_bounds (e : GameEvent) (s : GameState)
    (h0 : 0 ≤ s.health) (h1 : s.health ≤ 100) :
    0 ≤ (stepEvent e s).health ∧ (stepEvent e s).health ≤ 100 := by
  cases e with
  | hit g =>
      have h : (stepEvent (GameEvent.hit g) s).health
          = if s.health + 2 ≤ 100 then s.health + 2 else 100 := rfl
      rw [h]; split_ifs <;> omega
  | miss =>
      by_cases h : s.health - 15 ≤ 0
      · have h2 : (stepEvent GameEvent.miss s).health = 0 := by
          simp [stepEvent, handleNoteMiss, h]
        rw [h2]; omega
      · have h2 : (stepEvent GameEvent.miss s).health = s.health - 15 := by
          simp [stepEvent, handleNoteMiss, h]
        rw [h2]; omega

theorem runEvents_health_bounds (evs : List GameEvent) :
    ∀ s : GameState, 0 ≤ s.health → s.health ≤ 100 →
      0 ≤ (runEvents evs s).health ∧ (runEvents evs s).health ≤ 100 := by
  induction evs with
  | nil => exact fun s h0 h1 => ⟨h0, h1⟩
  | cons e rest ih =>
      intro s h0 h1
      have h := stepEvent_health_bounds e s h0 h1
      exact ih (stepEvent e s) h.1 h.2

/-! ### Claim C1: points awarded on a hit -/

/-- C1, counterexample: from a fresh PLAYING state, eleven consecutive
direction-correct hits leave the score at score-after-ten + (100+50)×1,
not score-after-ten + (100+50)×2 as the claim predicts: the awarded points
are multiplied by the multiplier value from before the hit, since the
setScore updater reads the stale closure value, not the tier just
recomputed from the incremented combo. -/
theorem eleventh_hit_adds_150_not_300 :
    (hits 11).score = (hits 10).score + 150 ∧
    ¬ (hits 11).score = (hits 10).score + (100 + 50) * 2 := by decide

/-- C1, amended: every hit awards (100, plus 50 if the cut direction was
correct) times the multiplier in effect before the hit, i.e. the tier of
the combo after the previous hit; the tier recomputed from the incremented
combo takes effect only from the next hit, so the 11th of 11 consecutive
direction-correct hits adds (100+50)×1 and the 12th adds (100+50)×2. -/
theorem hit_award_uses_pre_increment_multiplier :
    (∀ (s : GameState) (g : Bool),
      (handleNoteHit g s).score
          = s.score + (100 + (if g then 50 else 0)) * s.multiplier ∧
      (handleNoteHit g s).combo = s.combo + 1 ∧
      (handleNoteHit g s).multiplier = multiplierFor (s.combo + 1)) ∧
    (hits 11).score = (hits 10).score + (100 + 50) * 1 ∧
    (hits 12).score = (hits 11).score + (100 + 50) * 2 :=
  ⟨fun _ _ => ⟨rfl, rfl, rfl⟩, by decide, by decide⟩

/-! ### Claim C2: multiplier tiers -/

/-- C2: for every combo value the recomputed multiplier lies in {1,2,4,8},
is non-decreasing in the combo, and is chosen by strict greater-than
thresholds (c > 30 → 8, c > 20 → 4, c > 10 → 2, else 1), so at an exact
boundary the lower tier applies: multiplier 20 = 2, 10 = 1, 21 = 4,
31 = 8. -/
theorem multiplier_tiers_correct :
    (∀ c : Nat, multiplierFor c = 1 ∨ multiplierFor c = 2 ∨
      multiplierFor c = 4 ∨ multiplierFor c = 8) ∧
    (∀ c1 c2 : Nat, c1 ≤ c2 → multiplierFor c1 ≤ multiplierFor c2) ∧
    (∀ c : Nat, (30 < c → multiplierFor c = 8) ∧
      (20 < c → c ≤ 30 → multiplierFor c = 4) ∧
      (10 < c → c ≤ 20 → multiplierFor c = 2) ∧
      (c ≤ 10 → multiplierFor c = 1)) ∧
    multiplierFor 20 = 2 ∧ multiplierFor 10 = 1 ∧
    multiplierFor 21 = 4 ∧ multiplierFor 31 = 8 := by
  refine ⟨?_, ?_, ?_, by decide, by decide, by decide, by decide⟩
  · intro c; unfold multiplierFor; split_ifs <;> simp
  · intro c1 c2 h; unfold multiplierFor; split_ifs <;> omega
  · intro c
    refine ⟨fun h => ?_, fun h h2 => ?_, fun h h2 => ?_, fun h => ?_⟩ <;>
      (unfold multiplierFor; split_ifs <;> omega)

/-- C2, witness: the monotonicity and threshold parts of
multiplier_tiers_correct at concrete combo values. -/
theorem multiplier_tiers_correct_witness :
    multiplierFor 3 ≤ multiplierFor 7 ∧ multiplierFor 25 = 4 :=
  ⟨multiplier_tiers_correct.2.1 3 7 (by decide),
   (multiplier_tiers_correct.2.2.1 25).2.1 (by decide) (by decide)⟩

/-! ### Claim C3: health clamp invariant -/

/-- C3: from the initial state (health 100), health stays in [0, 100] after
every sequence of hit and miss events; a hit adds 2 clamped at 100 and a
miss subtracts 15 clamped at 0. -/
theorem health_always_clamped :
    (∀ evs : List GameEvent,
      0 ≤ (runEvents evs initPlaying).health ∧
      (runEvents evs initPlaying).health ≤ 100) ∧
    (∀ (s : GameState) (g : Bool),
      (handleNoteHit g s).health = min 100 (s.health + 2)) ∧
    (∀ s : GameState, (handleNoteMiss s).health = max 0 (s.health - 15)) := by
  refine ⟨fun evs => runEvents_health_bounds evs initPlaying (by decide) (by decide),
    ?_, ?_⟩
  · intro s g
    have h : (handleNoteHit g s).health
        = if s.health + 2 ≤ 100 then s.health + 2 else 100 := rfl
    rw [h]; split_ifs <;> omega
  · intro s
    by_cases h : s.health - 15 ≤ 0
    · have h2 : (handleNoteMiss s).health = 0 := by simp [handleNoteMiss, h]
      rw [h2]; omega
    · have h2 : (handleNoteMiss s).health = s.health - 15 := by
        simp [handleNoteMiss, h]
      rw [h2]; omega

/-! ### Claim C4: a miss resets and defers GAME_OVER -/

/-- C4: every miss sets combo to 0 and multiplier to 1 regardless of prior
combo, decreases health by 15 (clamped at 0), and leaves the phase
unchanged within the update itself; a lethal miss only schedules the
GAME_OVER transition (pendingGameOver), which yields GAME_OVER when the
deferred timeout runs. -/
theorem miss_resets_and_defers_game_over (s : GameState) :
    (handleNoteMiss s).combo = 0 ∧
    (handleNoteMiss s).multiplier = 1 ∧
    (handleNoteMiss s).status = s.status ∧
    (s.health - 15 ≤ 0 →
      (handleNoteMiss s).health = 0 ∧
      (handleNoteMiss s).pendingGameOver = true) ∧
    (0 < s.health - 15 →
      (handleNoteMiss s).health = s.health - 15 ∧
      (handleNoteMiss s).pendingGameOver = s.pendingGameOver) ∧
    (∀ s2 : GameState, s2.pendingGameOver = true →
      (applyPending s2).status = GameStatus.GAME_OVER) := by
  refine ⟨?_, ?_, ?_, ?_, ?_, ?_⟩
  · by_cases h : s.health - 15 ≤ 0 <;> simp [handleNoteMiss, h]
  · by_cases h : s.health - 15 ≤ 0 <;> simp [handleNoteMiss, h]
  · by_cases h : s.health - 15 ≤ 0 <;> simp [handleNoteMiss, h]
  · intro h; simp [handleNoteMiss, h]
  · intro h
    have h2 : ¬ s.health - 15 ≤ 0 := by omega
    simp [handleNoteMiss, h2]
  · intro s2 h2; simp [applyPending, endGame, h2]

/-- C4, witness: miss_resets_and_defers_game_over at the health-15 state:
health is clamped to 0, the transition only becomes pending, and the phase
is still PLAYING inside the update. -/
theorem miss_resets_and_defers_game_over_witness :
    (handleNoteMiss s15).health = 0 ∧
    (handleNoteMiss s15).pendingGameOver = true ∧
    (handleNoteMiss s15).combo = 0 ∧
    (handleNoteMiss s15).status = GameStatus.PLAYING := by
  have h := miss_resets_and_defers_game_over s15
  have h4 := h.2.2.2.1 (by decide)
  exact ⟨h4.1, h4.2, h.1, h.2.2.1.trans rfl⟩

/-! ### Claim C5: chart reset on entering PLAYING -/

/-- C5, counterexample: starting a game clears hit and missed on every
chart note, but a previously judged note keeps its hitTime: for exNote
(hitTime = some 1), the note after the reset performed by the successful
start still has hitTime = some 1, not none as the claim requires. -/
theorem reset_keeps_hit_time :
    (startGame true true initIdle [exNote]).1.status = GameStatus.PLAYING ∧
    (startGame true true initIdle [exNote]).2 = [resetNote exNote] ∧
    (resetNote exNote).hitTime = some 1 ∧
    ¬ (resetNote exNote).hitTime = none := by
  refine ⟨rfl, rfl, rfl, by decide⟩

/-- C5, amended: entering PLAYING clears every note's hit and missed flags
but leaves hitTime exactly as it was, and mutates no other field of any
NoteData (id, time, lineIndex, lineLayer, type, cutDirection unchanged). -/
theorem start_reset_clears_hit_missed_only :
    (∀ n : NoteData,
      (resetNote n).hit = false ∧ (resetNote n).missed = false ∧
      (resetNote n).hitTime = n.hitTime ∧ (resetNote n).id = n.id ∧
      (resetNote n).time = n.time ∧ (resetNote n).lineIndex = n.lineIndex ∧
      (resetNote n).lineLayer = n.lineLayer ∧ (resetNote n).type = n.type ∧
      (resetNote n).cutDirection = n.cutDirection) ∧
    (∀ (s : GameState) (chart : List NoteData),
      (startGame true true s chart).2 = chart.map resetNote ∧
      (startGame true true s chart).1.status = GameStatus.PLAYING) :=
  ⟨fun _ => ⟨rfl, rfl, rfl, rfl, rfl, rfl, rfl, rfl, rfl⟩,
   fun _ _ => ⟨rfl, rfl⟩⟩

/-! ### Claim C9: audio failure keeps the phase -/

/-- C9: when the camera is ready but audio playback fails to start, the
status stays exactly what it was (no transition to PLAYING); the function
still returns a state (non-fatal), and invoking start again with a
succeeding play reaches PLAYING. -/
theorem audio_failure_blocks_playing_retry_ok :
    ∀ (s : GameState) (chart : List NoteData),
      (startGame true false s chart).1.status = s.status ∧
      (startGame true true s chart).1.status = GameStatus.PLAYING ∧
      (startGame true true (startGame true false s chart).1
        (startGame true false s chart).2).1.status = GameStatus.PLAYING :=
  fun _ _ => ⟨rfl, rfl, rfl⟩

/-! ### Claim C10: resets precede the audio attempt -/

/-- C10: start is not atomic: even on the failing-audio path the score,
combo, multiplier and health have already been reset to 0, 0, 1, 100, the
chart notes' hit/missed flags have been cleared, and only the status is
left unchanged. -/
theorem start_resets_before_audio_attempt :
    ∀ (s : GameState) (chart : List NoteData),
      (startGame true false s chart).1.score = 0 ∧
      (startGame true false s chart).1.combo = 0 ∧
      (startGame true false s chart).1.multiplier = 1 ∧
      (startGame true false s chart).1.health = 100 ∧
      (startGame true false s chart).1.status = s.status ∧
      (startGame true false s chart).2 = resetChart chart ∧
      (∀ n : NoteData, (resetNote n).hit = false ∧ (resetNote n).missed = false) :=
  fun _ _ => ⟨rfl, rfl, rfl, rfl, rfl, rfl, fun _ => ⟨rfl, rfl⟩⟩

/-! ### Claim C6: dwell progress formula and range -/

/-- C6, counterexample: with button 0 continuously hovered at frame times
0, 900, 1000, 1016, the progress is 9/10 after 900 ms, drops to 0 at the
activation frame at 1000 ms (where the claimed formula gives 1 and
monotonicity fails), and becomes negative on the next frame because the
activation pushed startTime 500 ms into the future — so progress does not
always lie in [0, 1]. -/
theorem dwell_progress_leaves_unit_interval :
    (runDwell [(0, hoverObs 0), (900, hoverObs 0)] initDwell).progress = 9/10 ∧
    (runDwell [(0, hoverObs 0), (900, hoverObs 0), (1000, hoverObs 0)]
      initDwell).progress = 0 ∧
    (runDwell [(0, hoverObs 0), (900, hoverObs 0), (1000, hoverObs 0),
      (1016, hoverObs 0)] initDwell).progress < 0 := by
  have h1 : dwellStep 0 (hoverObs 0) initDwell = dwellA1 := by
    norm_num [dwellStep, dwellHover, hoverObs, initDwell, addMark, jsMin, dwellA1,
      HOVER_THRESHOLD_MS, CLICK_COOLDOWN_MS]
  have h2 : dwellStep 900 (hoverObs 0) dwellA1 = dwellA2 := by
    norm_num [dwellStep, dwellHover, hoverObs, addMark, jsMin, dwellA1, dwellA2,
      HOVER_THRESHOLD_MS, CLICK_COOLDOWN_MS]
  have h3 : dwellStep 1000 (hoverObs 0) dwellA2 = dwellA3 := by
    norm_num [dwellStep, dwellHover, hoverObs, addMark, jsMin, dwellA1, dwellA2,
      dwellA3, HOVER_THRESHOLD_MS, CLICK_COOLDOWN_MS]
  have h4 : dwellStep 1016 (hoverObs 0) dwellA3 = dwellA4 := by
    norm_num [dwellStep, dwellHover, hoverObs, addMark, jsMin, dwellA1, dwellA3,
      dwellA4, HOVER_THRESHOLD_MS, CLICK_COOLDOWN_MS]
  refine ⟨?_, ?_, ?_⟩ <;>
    simp only [runDwell, h1, h2, h3, h4] <;>
    norm_num [dwellA1, dwellA2, dwellA3, dwellA4]

/-- C6, amended: while the same enabled element stays hovered and no
activation fires at the frame, progress equals
min(1, elapsedSinceStart / 1000 ms), lies in [0, 1] once the frame time is
at or past the dwell start, and is non-decreasing over consecutive such
frames; progress resets to 0 when the hovered element changes and at an
activation frame; during the post-activation cooldown (startTime pushed
beyond now) the computed progress is negative, which is the only way it
leaves [0, 1]. -/
theorem dwell_progress_formula_between_activations :
    (∀ (s : DwellState) (t : Nat) (now : ℚ),
      s.lastTarget = some t →
      jsMin 1 ((now - s.startTime) / HOVER_THRESHOLD_MS) < 1 →
      (dwellStep now (hoverObs t) s).progress
          = jsMin 1 ((now - s.startTime) / HOVER_THRESHOLD_MS) ∧
      (dwellStep now (hoverObs t) s).startTime = s.startTime ∧
      (dwellStep now (hoverObs t) s).lastTarget = some t) ∧
    (∀ (s : DwellState) (t : Nat) (now : ℚ),
      s.lastTarget = some t → s.startTime ≤ now →
      jsMin 1 ((now - s.startTime) / HOVER_THRESHOLD_MS) < 1 →
      0 ≤ (dwellStep now (hoverObs t) s).progress ∧
      (dwellStep now (hoverObs t) s).progress ≤ 1) ∧
    (∀ (s : DwellState) (t : Nat) (n1 n2 : ℚ),
      s.lastTarget = some t → n1 ≤ n2 →
      jsMin 1 ((n1 - s.startTime) / HOVER_THRESHOLD_MS) < 1 →
      jsMin 1 ((n2 - s.startTime) / HOVER_THRESHOLD_MS) < 1 →
      (dwellStep n1 (hoverObs t) s).progress
        ≤ (dwellStep n2 (hoverObs t) (dwellStep n1 (hoverObs t) s)).progress) ∧
    (∀ (s : DwellState) (t : Nat) (now : ℚ),
      ¬ s.lastTarget = some t →
      (dwellStep now (hoverObs t) s).progress = 0 ∧
      (dwellStep now (hoverObs t) s).startTime = now) ∧
    (∀ (s : DwellState) (t : Nat) (now : ℚ),
      s.lastTarget = some t →
      1 ≤ jsMin 1 ((now - s.startTime) / HOVER_THRESHOLD_MS) →
      (dwellStep now (hoverObs t) s).progress = 0) ∧
    (∀ (s : DwellState) (t : Nat) (now : ℚ),
      s.lastTarget = some t → now < s.startTime →
      (dwellStep now (hoverObs t) s).progress < 0) := by
  refine ⟨?_, ?_, ?_, ?_, ?_, ?_⟩
  · intro s t now hlt hna
    rw [dwellStep_hover, dwellHover_same_noact s t now hlt hna]
    exact ⟨rfl, rfl, hlt⟩
  · intro s t now hlt hst hna
    rw [dwellStep_hover, dwellHover_same_noact s t now hlt hna]
    constructor
    · exact jsMin_nonneg 1 _ (by norm_num)
        (div_nonneg (by linarith) (le_of_lt hover_threshold_pos))
    · exact jsMin_le_left 1 _
  · intro s t n1 n2 hlt h12 hna1 hna2
    have p1 := dwellStep_progress_same s t n1 hlt hna1
    have st1 := dwellStep_startTime_same s t n1 hlt hna1
    have lt1 := dwellStep_lastTarget_same s t n1 hlt hna1
    have hna2b : jsMin 1 ((n2 - (dwellStep n1 (hoverObs t) s).startTime)
        / HOVER_THRESHOLD_MS) < 1 := by rw [st1]; exact hna2
    have p2 := dwellStep_progress_same (dwellStep n1 (hoverObs t) s) t n2 lt1 hna2b
    rw [p1, p2, st1]
    exact jsMin_mono_right 1 _ _
      (div_le_div_of_nonneg_right (by linarith) (le_of_lt hover_threshold_pos))
  · intro s t now hne
    rw [dwellStep_hover, dwellHover_new_target s t now hne]
    exact ⟨rfl, rfl⟩
  · intro s t now hlt hact
    rw [dwellStep_hover, dwellHover_act s t now hlt hact]
  · intro s t now hlt hcool
    have hx : (now - s.startTime) / HOVER_THRESHOLD_MS < 0 :=
      div_neg_of_neg_of_pos (by linarith) hover_threshold_pos
    have hna : jsMin 1 ((now - s.startTime) / HOVER_THRESHOLD_MS) < 1 := by
      unfold jsMin; split_ifs with h <;> linarith
    rw [dwellStep_hover, dwellHover_same_noact s t now hlt hna]
    show jsMin 1 ((now - s.startTime) / HOVER_THRESHOLD_MS) < 0
    unfold jsMin; split_ifs with h <;> linarith

/-- C6, witness: dwell_progress_formula_between_activations applied at the
state dwellA1 (hovering button 0 since time 0) and frame time 100:
progress is min(1, 100/1000) = 1/10. -/
theorem dwell_progress_formula_between_activations_witness :
    (dwellStep 100 (hoverObs 0) dwellA1).progress = 1/10 := by
  have h := (dwell_progress_formula_between_activations.1 dwellA1 0 100 rfl
    (by norm_num [jsMin, dwellA1, HOVER_THRESHOLD_MS])).1
  rw [h]
  norm_num [jsMin, dwellA1, HOVER_THRESHOLD_MS]

/-! ### Claim C7: hand loss mid-dwell -/

/-- C7, counterexample: hovering button 0 from time 0, at 600 ms progress
is 3/5; when the hand is lost at 700 ms the cursor deactivates but the
progress field keeps the stale value 3/5 (it is not reset to 0) and the
data-hand-hover marker is still on button 0 — the hand-lost branch is not
identical to the no-target branch, refuting the claim. -/
theorem hand_loss_keeps_progress_and_marker :
    (runDwell [(0, hoverObs 0), (600, hoverObs 0), (700, FrameObs.noHand)]
      initDwell).progress = 3/5 ∧
    ¬ (runDwell [(0, hoverObs 0), (600, hoverObs 0), (700, FrameObs.noHand)]
      initDwell).progress = 0 ∧
    (runDwell [(0, hoverObs 0), (600, hoverObs 0), (700, FrameObs.noHand)]
      initDwell).marked = [0] ∧
    (runDwell [(0, hoverObs 0), (600, hoverObs 0), (700, FrameObs.noHand)]
      initDwell).active = false := by
  have h1 : dwellStep 0 (hoverObs 0) initDwell = dwellA1 := by
    norm_num [dwellStep, dwellHover, hoverObs, initDwell, addMark, jsMin, dwellA1,
      HOVER_THRESHOLD_MS, CLICK_COOLDOWN_MS]
  have h2 : dwellStep 600 (hoverObs 0) dwellA1 = dwellB2 := by
    norm_num [dwellStep, dwellHover, hoverObs, addMark, jsMin, dwellA1, dwellB2,
      HOVER_THRESHOLD_MS, CLICK_COOLDOWN_MS]
  have h3 : dwellStep 700 FrameObs.noHand dwellB2 = dwellB3 := by
    norm_num [dwellStep, dwellHandLost, dwellA1, dwellB2, dwellB3]
  refine ⟨?_, ?_, ?_, ?_⟩ <;>
    simp only [runDwell, h1, h2, h3] <;>
    norm_num [dwellA1, dwellB2, dwellB3]

/-- C7, amended: when a hand becomes inactive while its cursor was active,
the cursor deactivates, hovering clears and the remembered target clears,
so re-acquiring any target later restarts dwell from progress 0 with a
fresh start time; however the progress field retains its stale value and
the hand-hovered marker set is left untouched by the hand-lost branch
(the marker is only removed when the target is lost while the hand is
still tracked, or at teardown). -/
theorem hand_loss_clears_target_restart_from_zero :
    ∀ (s : DwellState) (now : ℚ), s.active = true →
      (dwellStep now FrameObs.noHand s).active = false ∧
      (dwellStep now FrameObs.noHand s).hovering = false ∧
      (dwellStep now FrameObs.noHand s).lastTarget = none ∧
      (dwellStep now FrameObs.noHand s).progress = s.progress ∧
      (dwellStep now FrameObs.noHand s).marked = s.marked ∧
      (∀ (t : Nat) (n2 : ℚ),
        (dwellStep n2 (hoverObs t) (dwellStep now FrameObs.noHand s)).progress = 0 ∧
        (dwellStep n2 (hoverObs t) (dwellStep now FrameObs.noHand s)).startTime = n2) := by
  intro s now hact
  have h : dwellStep now FrameObs.noHand s
      = { s with active := false, hovering := false, lastTarget := none } := by
    rw [dwellStep_noHand]; unfold dwellHandLost; rw [if_pos hact]
  rw [h]
  refine ⟨rfl, rfl, rfl, rfl, rfl, ?_⟩
  intro t n2
  rw [dwellStep_hover,
    dwellHover_new_target _ t n2 (by simp)]
  exact ⟨rfl, rfl⟩

/-- C7, witness: hand_loss_clears_target_restart_from_zero at the state
dwellB2 (progress 3/5, hovering button 0): after the hand-lost frame the
target is cleared but progress stays 3/5, and re-hovering button 0 at time
1000 restarts dwell at progress 0 with startTime 1000. -/
theorem hand_loss_clears_target_restart_from_zero_witness :
    (dwellStep 700 FrameObs.noHand dwellB2).progress = 3/5 ∧
    (dwellStep 700 FrameObs.noHand dwellB2).lastTarget = none ∧
    (dwellStep 1000 (hoverObs 0) (dwellStep 700 FrameObs.noHand dwellB2)).progress = 0 ∧
    (dwellStep 1000 (hoverObs 0) (dwellStep 700 FrameObs.noHand dwellB2)).startTime = 1000 := by
  have h := hand_loss_clears_target_restart_from_zero dwellB2 700 rfl
  exact ⟨h.2.2.2.1.trans rfl, h.2.2.1, (h.2.2.2.2.2 0 1000).1, (h.2.2.2.2.2 0 1000).2⟩

/-! ### Claim C8: single activation and cooldown -/

/-- C8: a frame fires at most one click; when progress reaches 1 on the
hovered element exactly one activation fires, progress resets to 0, and
startTime is pushed to now + 500 ms; frames on the same target that do not
reach threshold change neither clicks nor startTime nor the target; from
the post-activation startTime, a second activation on the same
continuously-hovered element needs a frame at least 1500 ms — in
particular at least 500 ms — after the first, and within the 500 ms
cooldown the computed dwell progress stays ≤ 0, so dwell cannot restart
before the cooldown elapses. -/
theorem activation_fires_once_with_cooldown :
    (∀ (now : ℚ) (obs : FrameObs) (s : DwellState),
      (dwellStep now obs s).clicks = s.clicks ∨
      (dwellStep now obs s).clicks = s.clicks + 1) ∧
    (∀ (s : DwellState) (t : Nat) (n1 : ℚ),
      s.lastTarget = some t →
      1 ≤ jsMin 1 ((n1 - s.startTime) / HOVER_THRESHOLD_MS) →
      (dwellStep n1 (hoverObs t) s).clicks = s.clicks + 1 ∧
      (dwellStep n1 (hoverObs t) s).startTime = n1 + CLICK_COOLDOWN_MS ∧
      (dwellStep n1 (hoverObs t) s).progress = 0) ∧
    (∀ (s : DwellState) (t : Nat) (n : ℚ),
      s.lastTarget = some t →
      ¬ 1 ≤ jsMin 1 ((n - s.startTime) / HOVER_THRESHOLD_MS) →
      (dwellStep n (hoverObs t) s).clicks = s.clicks ∧
      (dwellStep n (hoverObs t) s).startTime = s.startTime ∧
      (dwellStep n (hoverObs t) s).lastTarget = some t) ∧
    (∀ (s2 : DwellState) (n1 n2 : ℚ),
      s2.startTime = n1 + CLICK_COOLDOWN_MS →
      1 ≤ jsMin 1 ((n2 - s2.startTime) / HOVER_THRESHOLD_MS) →
      n1 + 1500 ≤ n2 ∧ n1 + 500 ≤ n2) ∧
    (∀ (s2 : DwellState) (t : Nat) (n1 n2 : ℚ),
      s2.lastTarget = some t →
      s2.startTime = n1 + CLICK_COOLDOWN_MS →
      n2 ≤ n1 + CLICK_COOLDOWN_MS →
      (dwellStep n2 (hoverObs t) s2).progress ≤ 0) := by
  refine ⟨?_, ?_, ?_, ?_, ?_⟩
  · intro now obs s
    cases obs with
    | noHand =>
        rw [dwellStep_noHand]; unfold dwellHandLost
        split_ifs <;> exact Or.inl rfl
    | hand btn =>
        rcases btn with _ | ⟨t, b⟩
        · exact Or.inl rfl
        · cases b
          · rw [show dwellStep now (FrameObs.hand (some (t, false))) s
                = dwellHover now t s from rfl]
            unfold dwellHover
            split_ifs
            · exact Or.inr rfl
            · exact Or.inl rfl
            · exact Or.inl rfl
          · exact Or.inl rfl
  · intro s t n1 hlt hact
    rw [dwellStep_hover, dwellHover_act s t n1 hlt hact]
    exact ⟨rfl, rfl, rfl⟩
  · intro s t n hlt hna
    rw [dwellStep_hover, dwellHover_same_noact s t n hlt (not_le.mp hna)]
    exact ⟨rfl, rfl, hlt⟩
  · intro s2 n1 n2 hst hact
    have h1 : 1 ≤ (n2 - s2.startTime) / HOVER_THRESHOLD_MS :=
      (one_le_jsMin_one_iff _).mp hact
    have h2 : HOVER_THRESHOLD_MS ≤ n2 - s2.startTime := by
      exact (one_le_div hover_threshold_pos).mp h1
    rw [hst] at h2
    simp only [HOVER_THRESHOLD_MS, CLICK_COOLDOWN_MS] at h2
    constructor <;> linarith
  · intro s2 t n1 n2 hlt hst hle
    have hx : (n2 - s2.startTime) / HOVER_THRESHOLD_MS ≤ 0 := by
      rw [div_nonpos_iff]
      right
      constructor
      · rw [hst]; simp only [CLICK_COOLDOWN_MS] at hle ⊢; linarith
      · exact le_of_lt hover_threshold_pos
    have hna : jsMin 1 ((n2 - s2.startTime) / HOVER_THRESHOLD_MS) < 1 := by
      unfold jsMin; split_ifs with h <;> linarith
    rw [dwellStep_hover, dwellHover_same_noact s2 t n2 hlt hna]
    show jsMin 1 ((n2 - s2.startTime) / HOVER_THRESHOLD_MS) ≤ 0
    unfold jsMin; split_ifs with h <;> linarith

/-- C8, witness: activation_fires_once_with_cooldown at dwellA1 and frame
time 1000: exactly one click fires, and startTime becomes 1500 so a second
activation on the same element needs a frame at or after 1500 ms. -/
theorem activation_fires_once_with_cooldown_witness :
    (dwellStep 1000 (hoverObs 0) dwellA1).clicks = 1 ∧
    (dwellStep 1000 (hoverObs 0) dwellA1).startTime = 1500 := by
  have h := activation_fires_once_with_cooldown.2.1 dwellA1 0 1000 rfl
    (by norm_num [jsMin, dwellA1, HOVER_THRESHOLD_MS])
  refine ⟨h.1.trans rfl, ?_⟩
  rw [h.2.1]
  norm_num [CLICK_COOLDOWN_MS]

end LightStrike
